import Mathlib

/-!
Verification development for the DPW roster scraper
(`no-database-roster-scraper.py` together with `config.py`).

Strings from the Python side are embedded as `List Char`; Python integers
as `Int` (arbitrary precision); fallible Python operations (tuple
unpacking of `str.split`, `int(...)`) as `Option`-returning functions.
Calendar dates are embedded by their proleptic-Gregorian ordinal
(Python's `date.toordinal`), so `date + timedelta(days = k)` is `+ k`
and `date.weekday()` (Monday = 0) is `(ordinal + 6) % 7`.
-/

/-- The six characters stripped by Python's `str.strip()` on ASCII input. -/
def isPySpace (c : Char) : Bool :=
  c == ' ' || c == '\t' || c == '\n' || c == '\r' || c == '\x0b' || c == '\x0c'

/-- Python `str.strip()`: drop whitespace from both ends. -/
def pyStrip (l : List Char) : List Char :=
  ((l.dropWhile isPySpace).reverse.dropWhile isPySpace).reverse

/-- Python `str.lower()` (the cell texts involved are ASCII). -/
def pyLower (l : List Char) : List Char :=
  l.map Char.toLower

/-- Python's substring test `pat in hay`. -/
def containsSub (pat : List Char) : List Char → Bool
  | [] => pat.isEmpty
  | c :: t => pat.isPrefixOf (c :: t) || containsSub pat t

/-- Digit tail of a Python integer literal: digits, with a single `_`
allowed between two digits (as accepted by `int(...)`). -/
def digitsVal : Nat → List Char → Option Nat
  | acc, [] => some acc
  | acc, '_' :: c :: t =>
      if c.isDigit then digitsVal (acc * 10 + (c.toNat - 48)) t else none
  | acc, c :: t =>
      if c.isDigit then digitsVal (acc * 10 + (c.toNat - 48)) t else none

/-- One-or-more digits (underscores between digits allowed). -/
def parseDigits : List Char → Option Nat
  | [] => none
  | c :: t => if c.isDigit then digitsVal (c.toNat - 48) t else none

/-- Python `int(s)`: strip whitespace, optional sign, digits; `none`
models the `ValueError` caught by the scraper. -/
def pyToInt (s : List Char) : Option Int :=
  match pyStrip s with
  | '+' :: rest => (parseDigits rest).map (fun n => (n : Int))
  | '-' :: rest => (parseDigits rest).map (fun n => -(n : Int))
  | rest => (parseDigits rest).map (fun n => (n : Int))

/-- Python `cell_content.replace('<br/>', '\n')`, specialised to the one
pattern the scraper uses; replaces non-overlapping occurrences left to
right (the replacement `'\n'` cannot create a new occurrence). -/
def replaceBr : List Char → List Char
  | '<' :: 'b' :: 'r' :: '/' :: '>' :: t => '\n' :: replaceBr t
  | c :: t => c :: replaceBr t
  | [] => []

/-- Python `s.lstrip('0') or '0'` as used on the HHMM fields. -/
def lstripZerosOrZero (l : List Char) : List Char :=
  let d := l.dropWhile (fun c => c == '0')
  if d = [] then ['0'] else d

/-- One parsed shift, mirroring the dict built at
`no-database-roster-scraper.py:256-261`. -/
structure ShiftRecord where
  shift_type : Char
  shift_start : Int
  shift_end : Int
  hours : Int
deriving DecidableEq

/-- Parse of one (already stripped, non-empty) shift line, mirroring
`no-database-roster-scraper.py:244-254`:
`shift_type = line[0]`; `times_and_hours = line[1:].strip()`;
`times, hours_str = times_and_hours.split('(')` (exactly two parts, else
`ValueError`); `times.split('-')` likewise; the three `int(...)`
conversions. `none` is the caught `ValueError` (the line is dropped). -/
def parseShiftLine : List Char → Option ShiftRecord
  | [] => none
  | c :: rest =>
    match (pyStrip rest).splitOn '(' with
    | [times, hoursPart] =>
      match times.splitOn '-' with
      | [s1, s2] =>
        match pyToInt (lstripZerosOrZero s1),
              pyToInt (lstripZerosOrZero s2),
              pyToInt (pyStrip (hoursPart.filter (fun ch => ch != ')'))) with
        | some a, some b, some h => some ⟨c, a, b, h⟩
        | _, _, _ => none
      | _ => none
    | _ => none

/-- The per-line step of the parsing loop at lines 239-261: strip the
line, skip it when empty, otherwise attempt the structured parse. -/
def parsedOfLine (l : List Char) : Option ShiftRecord :=
  if pyStrip l = [] then none else parseShiftLine (pyStrip l)

/-- The loop body of lines 239-261: `shifts` and `hours_worked` are the
two accumulators of the Python `for line in lines` loop. -/
def shiftsLoop : List (List Char) → List ShiftRecord → Int → List ShiftRecord × Int
  | [], shifts, hours_worked => (shifts, hours_worked)
  | l :: rest, shifts, hours_worked =>
    match parsedOfLine l with
    | none => shiftsLoop rest shifts hours_worked
    | some r => shiftsLoop rest (shifts ++ [r]) (hours_worked + r.hours)

/-- `lines = cell_content.replace('<br/>', '\n').split('\n')` followed by
the parsing loop, started on the empty accumulators. -/
def parseCell (cell : List Char) : List ShiftRecord × Int :=
  shiftsLoop ((replaceBr cell).splitOn '\n') [] 0

/-- Classification outcome of one day cell (spec's DayOutcome). -/
inductive DayOutcome where
  | notRostered
  | notFinalized
  | rostered (shifts : List ShiftRecord) (hours_worked : Int)
deriving DecidableEq

/-- The `"&nbsp;"` placeholder compared against at line 195. -/
def nbspLit : String := "&nbsp;"

/-- The case-insensitive marker looked for at line 212. -/
def notFinalisedLit : String := "not finalised"

/-- The classification chain of `process_roster`
(`no-database-roster-scraper.py:194-262`), first match wins:
empty or `"&nbsp;"`; then `"not finalised" in cell_content.lower()`;
otherwise the structured parse. -/
def classify (cell : List Char) : DayOutcome :=
  if cell = [] ∨ cell = nbspLit.data then DayOutcome.notRostered
  else if containsSub notFinalisedLit.data (pyLower cell) then DayOutcome.notFinalized
  else DayOutcome.rostered (parseCell cell).1 (parseCell cell).2

/-- The records of a cell's lines that parse, failing lines dropped. -/
def parsedLines (cell : List Char) : List ShiftRecord :=
  ((replaceBr cell).splitOn '\n').filterMap parsedOfLine

/-- Total hours of a record list. -/
def sumHoursOf (rs : List ShiftRecord) : Int :=
  (rs.map ShiftRecord.hours).sum

/-!  Date planner (`get_test_dates`, lines 347-373) and the date model.  -/

/-- Python `date.weekday()` (Monday = 0) of a proleptic-Gregorian
ordinal; ordinal 1 is 0001-01-01, a Monday. -/
def pyWeekday (ordinal : Nat) : Nat :=
  (ordinal + 6) % 7

/-- `get_test_dates` (lines 347-373): on a Friday (`weekday() == 4`) the
following Saturday and Sunday, otherwise only the next day. -/
def get_test_dates (base_date : Nat) : List Nat :=
  if pyWeekday base_date = 4 then [base_date + 1, base_date + 2]
  else [base_date + 1]

/-!  Cell locator (lines 176-181).  The `month_offsets` table lives in
`offsets.py`, which is configuration data; the locator is stated over an
arbitrary table (a month ↦ offset association list standing for the
Python dict, whose literal has distinct keys). -/

/-- `offset = month_offsets.get(month, 0); cell_index = offset + day`. -/
def cellIndexOf (month_offsets : List (Nat × Int)) (month day : Nat) : Int :=
  (month_offsets.lookup month).getD 0 + (day : Int)

/-!  CLI base-date handling (`determine_base_date`, lines 322-345).
`datetime.strptime(date_str, '%Y-%m-%d')` matches exactly four digits,
a dash, one or two digits, a dash, one or two digits, consuming the
whole string, and then validates the calendar date (CPython raises
`ValueError` otherwise, which the function turns into `sys.exit(1)`). -/

def isLeapYear (y : Nat) : Bool :=
  (y % 4 = 0 && y % 100 ≠ 0) || y % 400 = 0

def daysInMonth (y m : Nat) : Nat :=
  if m = 2 then (if isLeapYear y then 29 else 28)
  else if m = 4 ∨ m = 6 ∨ m = 9 ∨ m = 11 then 30
  else 31

/-- Validity check performed by the `datetime` constructor
(`MINYEAR = 1`; `%Y` matches at most four digits). -/
def validDate (y m d : Nat) : Bool :=
  1 ≤ y && 1 ≤ m && m ≤ 12 && 1 ≤ d && d ≤ daysInMonth y m

def digitsToNat (l : List Char) : Nat :=
  l.foldl (fun a c => a * 10 + (c.toNat - 48)) 0

/-- `datetime.strptime(s, '%Y-%m-%d').date()` as a partial function:
`some (y, m, d)` on success, `none` for the `ValueError` path. -/
def strptimeYMD (s : List Char) : Option (Nat × Nat × Nat) :=
  match s.splitOn '-' with
  | [ys, ms, ds] =>
    if ys.length = 4 && ys.all Char.isDigit
        && 1 ≤ ms.length && ms.length ≤ 2 && ms.all Char.isDigit
        && 1 ≤ ds.length && ds.length ≤ 2 && ds.all Char.isDigit then
      if validDate (digitsToNat ys) (digitsToNat ms) (digitsToNat ds) then
        some (digitsToNat ys, digitsToNat ms, digitsToNat ds)
      else none
    else none
  | _ => none

/-- Days strictly before month `m` of year `y`. -/
def daysBeforeMonth (y m : Nat) : Nat :=
  (List.range (m - 1)).foldl (fun a i => a + daysInMonth y (i + 1)) 0

/-- Python `date(y, m, d).toordinal()` (proleptic Gregorian). -/
def toOrdinal (y m d : Nat) : Nat :=
  365 * (y - 1) + (y - 1) / 4 - (y - 1) / 100 + (y - 1) / 400
    + daysBeforeMonth y m + d

def todayLit : String := "today"

def tomorrowLit : String := "tomorrow"

/-- `determine_base_date` (lines 322-345); `today_ord` is the ordinal of
`datetime.today().date()`.  `Except.error 1` is the
`print(...); sys.exit(1)` path for an unparsable date string. -/
def determine_base_date (today_ord : Nat) (date_str : String) : Except Nat Nat :=
  if pyLower date_str.data = todayLit.data then Except.ok today_ord
  else if pyLower date_str.data = tomorrowLit.data then Except.ok (today_ord + 1)
  else
    match strptimeYMD date_str.data with
    | some (y, m, d) => Except.ok (toOrdinal y m d)
    | none => Except.error 1

/-!  Configuration (`config.py`).  -/

def keySelf : String := "self"

def keyWife : String := "wife"

def keyMum : String := "mum"

/-- The `RECIPIENTS` dict of `config.py:33-37`. -/
def RECIPIENTS : List (String × String) :=
  [(keySelf, "+1234567890"), (keyWife, "+0987654321"), (keyMum, "+1122334455")]

/-- `RECIPIENTS[role]` (every key used by the scraper is present). -/
def recipientOf (role : String) : String :=
  (RECIPIENTS.lookup role).getD ""

/-- `MUM_SEND_DAYS` of `config.py:41`. -/
def MUM_SEND_DAYS : List String :=
  ["wed", "thu"]

/-- `datetime.today().strftime('%a').lower()` for a given
`weekday()` value (C locale: Mon ... Sun). -/
def weekdayAbbrev (w : Nat) : String :=
  match w % 7 with
  | 0 => "mon"
  | 1 => "tue"
  | 2 => "wed"
  | 3 => "thu"
  | 4 => "fri"
  | 5 => "sat"
  | _ => "sun"

/-!  Session orchestrator (`process_roster`, lines 141-300, and `main`,
lines 375-523).  The external world — the remote UI and its failure
modes — is an input: one `DateObs` per target date per attempt, and an
`AttemptObs` per attempt.  Selenium waits, `time.sleep`, `driver.quit`
and log output are I/O without data flow into the modelled results and
are not represented. -/

/-- What the remote UI does for one target date of one attempt:
whether month navigation succeeds (lines 152-174), whether the date
cell is found (lines 183-192), the cell text, and whether an unexpected
exception is raised inside the shift-processing block (caught at lines
283-298).  The exception is modelled as occurring at the start of that
block, before anything is appended to the combined message. -/
structure DateObs where
  navOk : Bool
  cellFound : Bool
  text : List Char
  procExn : Bool
deriving DecidableEq

/-- One per-date message appended to `combined_message`; the source
builds newline-joined text that is non-blank exactly when at least one
message was appended, so the accumulated string is embedded as the list
of its messages. -/
inductive Msg where
  | notRosteredMsg (date : Nat)
  | notFinalMsg (date : Nat)
  | hoursMsg (date : Nat) (cellText : List Char)
deriving DecidableEq

/-- `process_roster` (lines 141-300): returns
`(combined_message, not_finalised_found)`.  Navigation or cell-lookup
timeouts `continue` to the next date; a not-finalised cell appends its
warning and `break`s; a shift-processing exception logs and falls
through to the next date. -/
def processRoster : List (Nat × DateObs) → List Msg × Bool
  | [] => ([], false)
  | (d, o) :: rest =>
    if o.navOk = false then processRoster rest
    else if o.cellFound = false then processRoster rest
    else
      match classify o.text with
      | DayOutcome.notRostered =>
          (Msg.notRosteredMsg d :: (processRoster rest).1, (processRoster rest).2)
      | DayOutcome.notFinalized => ([Msg.notFinalMsg d], true)
      | DayOutcome.rostered _ _ =>
          if o.procExn then processRoster rest
          else (Msg.hoursMsg d o.text :: (processRoster rest).1, (processRoster rest).2)

/-- What the world does on one whole attempt: a timeout at the username
field (lines 411-421), the password field (lines 423-435), or the
post-login landing check (lines 437-447); an unexpected exception
escaping to the handler at lines 501-521; or a loaded roster page with
one observation per target date. -/
inductive AttemptObs where
  | authFailUser
  | authFailPass
  | authFailLanding
  | raised
  | page (obs : List DateObs)

/-- Kinds of SMS the orchestrator can send. -/
inductive SmsPayload where
  | retryLimitMsg
  | errorMsg
  | successMsg (msgs : List Msg)
deriving DecidableEq

/-- Observable result of one program run: the SMS sends in order, the
`sys.exit` code (`none` when the run falls through to the final
`print("Script completed successfully.")`), the final `current_retry`,
the number of attempts begun, and how many times the success-path
notification decision (lines 481-497) was executed. -/
structure RunResult where
  smsSent : List (SmsPayload × List String)
  exitCode : Option Nat
  finalRetry : Nat
  attempts : Nat
  successDecisions : Nat
deriving DecidableEq

/-- The `while current_retry < max_retries` loop of `main`
(lines 400-521), written as a countdown: `remaining` is
`max_retries - current_retry`, so the loop guard `current_retry <
max_retries` is `remaining > 0` and the guard re-check after
`current_retry += 1` (line 458) is on `remaining - 1`.  `cur` is
`current_retry` and `k` numbers the attempts from 0. -/
def mainLoopF (dates : List Nat) (world : Nat → AttemptObs) (todayWd : Nat) :
    Nat → Nat → Nat → RunResult
  | 0, cur, k => ⟨[], none, cur, k, 0⟩
  | rem + 1, cur, k =>
    match world k with
    | AttemptObs.authFailUser => ⟨[], some 1, cur, k + 1, 0⟩
    | AttemptObs.authFailPass => ⟨[], some 1, cur, k + 1, 0⟩
    | AttemptObs.authFailLanding => ⟨[], some 1, cur, k + 1, 0⟩
    | AttemptObs.raised =>
        ⟨[(SmsPayload.errorMsg, [recipientOf keySelf, recipientOf keyWife])],
          some 1, cur, k + 1, 0⟩
    | AttemptObs.page obs =>
      if (processRoster (dates.zip obs)).2 then
        if 0 < rem then
          mainLoopF dates world todayWd rem (cur + 1) (k + 1)
        else
          ⟨[(SmsPayload.retryLimitMsg, [recipientOf keySelf, recipientOf keyWife])],
            some 1, cur + 1, k + 1, 0⟩
      else
        if (processRoster (dates.zip obs)).1 = [] then
          ⟨[], none, cur, k + 1, 1⟩
        else
          ⟨[(SmsPayload.successMsg (processRoster (dates.zip obs)).1,
              [recipientOf keySelf, recipientOf keyWife] ++
                (if MUM_SEND_DAYS.contains (weekdayAbbrev todayWd) then
                  [recipientOf keyMum] else []))],
            none, cur, k + 1, 1⟩

/-- The retry loop entered with retry counter `cur`; `main` starts it at
`cur = 0`, `k = 0` with `max_retries = 120` (line 396). -/
def mainLoop (max_retries : Nat) (dates : List Nat) (world : Nat → AttemptObs)
    (todayWd : Nat) (cur k : Nat) : RunResult :=
  mainLoopF dates world todayWd (max_retries - cur) cur k

/-- `main` (lines 375-523): resolve the base date (exiting before any
attempt on a bad date string), plan the target dates, run the retry
loop. -/
def mainRun (dateArg : String) (todayOrd todayWd max_retries : Nat)
    (world : Nat → AttemptObs) : RunResult :=
  match determine_base_date todayOrd dateArg with
  | Except.error c => ⟨[], some c, 0, 0, 0⟩
  | Except.ok base => mainLoop max_retries (get_test_dates base) world todayWd 0 0

/-- An attempt whose page observation classifies some date as
not-finalised (so `process_roster` reports `not_finalised_found`). -/
def attemptNotFinalised (dates : List Nat) (a : AttemptObs) : Prop :=
  match a with
  | AttemptObs.page obs => (processRoster (dates.zip obs)).2 = true
  | _ => False

/-!  Concrete data used by the closed instances below.  -/

/-- The spec's example well-formed shift line. -/
def lineDLit : String := "D0600-1400 (8)"

/-- A cell with two valid lines around one malformed line. -/
def twoLineCellLit : String := "D0600-1400 (8)\nBAD LINE\nN1800-0600 (12)"

/-- A non-empty cell without valid shift lines and without the
not-finalised marker. -/
def badCellLit : String := "zz"

/-- A line whose first character is a digit. -/
def digitLineLit : String := "0600-1400 (8)"

/-- The tail of `digitLineLit` after its first character. -/
def digitLineRest : List Char := "600-1400 (8)".data

/-- A cell carrying the not-finalised marker (mixed case). -/
def nfCellLit : String := "Roster Not Finalised"

/-- The upper-case CLI argument accepted by `determine_base_date`. -/
def argTodayUpper : String := "TODAY"

/-- A CLI argument on the rejection path. -/
def argNonsense : String := "next-tuesday"

/-- A demonstration month-offset table. -/
def demoOffsets : List (Nat × Int) := [(9, 245), (10, 287)]

/-- A date observation that classifies as not-finalised. -/
def nfObs : DateObs := ⟨true, true, nfCellLit.data, false⟩

/-- A date observation whose shift-processing block raises. -/
def exnObs : DateObs := ⟨true, true, lineDLit.data, true⟩

/-- A benign rostered date observation. -/
def goodObs : DateObs := ⟨true, true, twoLineCellLit.data, false⟩

/-- A world in which every attempt times out at the username field. -/
def authWorld : Nat → AttemptObs := fun _ => AttemptObs.authFailUser

/-- A world in which every attempt raises an unexpected exception. -/
def raisedWorld : Nat → AttemptObs := fun _ => AttemptObs.raised

/-- A world in which every attempt finds a not-finalised roster. -/
def nfWorld : Nat → AttemptObs := fun _ => AttemptObs.page [nfObs]

/-- A world whose single roster page raises while processing its first
date and parses its second date normally. -/
def exnWorld : Nat → AttemptObs := fun _ => AttemptObs.page [exnObs, goodObs]

/-- A world that succeeds immediately with one rostered date. -/
def goodWorld : Nat → AttemptObs := fun _ => AttemptObs.page [goodObs]

/-!  Helper lemmas.  -/

theorem shiftsLoop_eq (lines : List (List Char)) :
    ∀ (acc : List ShiftRecord) (hw : Int),
      shiftsLoop lines acc hw =
        (acc ++ lines.filterMap parsedOfLine,
         hw + sumHoursOf (lines.filterMap parsedOfLine)) := by
  induction lines with
  | nil => intro acc hw; simp [shiftsLoop, sumHoursOf]
  | cons l rest ih =>
    intro acc hw
    simp only [shiftsLoop, List.filterMap_cons]
    cases h : parsedOfLine l with
    | none => simp [h, ih]
    | some r =>
      simp only [h, ih, sumHoursOf, List.map_cons, List.sum_cons, List.append_assoc,
        List.singleton_append, List.cons_append, Prod.mk.injEq, true_and]
      constructor
      · simp
      · ring

theorem parseCell_eq (cell : List Char) :
    parseCell cell = (parsedLines cell, sumHoursOf (parsedLines cell)) := by
  simp [parseCell, parsedLines, shiftsLoop_eq]

theorem mainLoopF_allNF (dates : List Nat) (world : Nat → AttemptObs) (todayWd : Nat) :
    ∀ rem cur k, 0 < rem →
      (∀ j, j < rem → attemptNotFinalised dates (world (k + j))) →
      mainLoopF dates world todayWd rem cur k =
        ⟨[(SmsPayload.retryLimitMsg, [recipientOf keySelf, recipientOf keyWife])],
          some 1, cur + rem, k + rem, 0⟩ := by
  intro rem
  induction rem with
  | zero => intro cur k h _; exact absurd h (Nat.lt_irrefl 0)
  | succ r ih =>
    intro cur k _ hall
    have h0 := hall 0 (Nat.succ_pos r)
    rw [Nat.add_zero] at h0
    cases hw : world k with
    | authFailUser => rw [hw] at h0; simp [attemptNotFinalised] at h0
    | authFailPass => rw [hw] at h0; simp [attemptNotFinalised] at h0
    | authFailLanding => rw [hw] at h0; simp [attemptNotFinalised] at h0
    | raised => rw [hw] at h0; simp [attemptNotFinalised] at h0
    | page obs =>
      rw [hw] at h0
      simp only [attemptNotFinalised] at h0
      by_cases hr : 0 < r
      · have hargs := ih (cur + 1) (k + 1) hr (fun j hj => by
          have h2 := hall (j + 1) (Nat.succ_lt_succ hj)
          rw [show k + 1 + j = k + (j + 1) by omega]
          exact h2)
        simp only [mainLoopF, hw, h0, if_true, hr, hargs]
        simp only [RunResult.mk.injEq, true_and, and_true]
        constructor <;> omega
      · have hr0 : r = 0 := by omega
        subst hr0
        simp [mainLoopF, hw, h0]

theorem mainLoopF_success (dates : List Nat) (world : Nat → AttemptObs) (todayWd : Nat) :
    ∀ t rem cur k obs, t < rem →
      (∀ j, j < t → attemptNotFinalised dates (world (k + j))) →
      world (k + t) = AttemptObs.page obs →
      (processRoster (dates.zip obs)).2 = false →
      (mainLoopF dates world todayWd rem cur k).successDecisions = 1 ∧
      (mainLoopF dates world todayWd rem cur k).attempts = k + t + 1 := by
  intro t
  induction t with
  | zero =>
    intro rem cur k obs ht _ hpage hnf
    obtain ⟨r, rfl⟩ : ∃ r, rem = r + 1 := ⟨rem - 1, by omega⟩
    rw [Nat.add_zero] at hpage
    simp only [mainLoopF, hpage, hnf]
    by_cases hm : (processRoster (dates.zip obs)).1 = []
    · simp [hm]
    · simp [hm]
  | succ t ih =>
    intro rem cur k obs ht hall hpage hnf
    obtain ⟨r, rfl⟩ : ∃ r, rem = r + 1 := ⟨rem - 1, by omega⟩
    have h0 := hall 0 (Nat.succ_pos t)
    rw [Nat.add_zero] at h0
    cases hw : world k with
    | authFailUser => rw [hw] at h0; simp [attemptNotFinalised] at h0
    | authFailPass => rw [hw] at h0; simp [attemptNotFinalised] at h0
    | authFailLanding => rw [hw] at h0; simp [attemptNotFinalised] at h0
    | raised => rw [hw] at h0; simp [attemptNotFinalised] at h0
    | page obs0 =>
      rw [hw] at h0
      simp only [attemptNotFinalised] at h0
      have hr : 0 < r := by omega
      have hrec := ih r (cur + 1) (k + 1) obs (by omega)
        (fun j hj => by
          have h2 := hall (j + 1) (Nat.succ_lt_succ hj)
          rw [show k + 1 + j = k + (j + 1) by omega]
          exact h2)
        (by rw [show k + 1 + t = k + (t + 1) by omega]; exact hpage)
        hnf
      simp only [mainLoopF, hw, h0, if_true, hr]
      refine ⟨hrec.1, ?_⟩
      rw [hrec.2]
      omega

/-!  Claim theorems.  -/

/-- C1: classification applies its rules in order with first match
winning: empty or `"&nbsp;"` text is not-rostered; otherwise a text
containing the case-insensitive substring `"not finalised"` is
not-finalized; otherwise the outcome is rostered with the records of
the lines that parse, each failing line dropped individually, so a cell
with no parsable line yields a rostered outcome with an empty record
list rather than an error. -/
theorem classify_first_match (cell : List Char) :
    ((cell = [] ∨ cell = nbspLit.data) → classify cell = DayOutcome.notRostered)
  ∧ (¬(cell = [] ∨ cell = nbspLit.data) →
      containsSub notFinalisedLit.data (pyLower cell) = true →
      classify cell = DayOutcome.notFinalized)
  ∧ (¬(cell = [] ∨ cell = nbspLit.data) →
      containsSub notFinalisedLit.data (pyLower cell) = false →
      classify cell = DayOutcome.rostered (parsedLines cell) (sumHoursOf (parsedLines cell))) := by
  refine ⟨fun h1 => ?_, fun h1 h2 => ?_, fun h1 h2 => ?_⟩
  · simp [classify, h1]
  · simp [classify, h1, h2]
  · simp [classify, h1, h2, parseCell_eq]

/-- Witness for C1: a non-empty cell with no marker and no parsable
line classifies as rostered with the empty record list. -/
theorem classify_first_match_witness :
    classify badCellLit.data = DayOutcome.rostered [] 0 := by
  have h := (classify_first_match badCellLit.data).2.2 (by decide) (by decide)
  rw [h]
  decide

/-- C5: the well-formed line `"D0600-1400 (8)"` parses to the record
(type `'D'`, start 600, end 1400, hours 8); for every cell the
aggregated hours equal the sum of the hours fields of the records that
parsed; and a conversion failure on one line drops only that line,
parsing continuing over the remaining lines. -/
theorem shift_parse_roundtrip :
    parseShiftLine lineDLit.data = some ⟨'D', 600, 1400, 8⟩
  ∧ (∀ cell shifts hw, classify cell = DayOutcome.rostered shifts hw →
      hw = sumHoursOf shifts)
  ∧ classify twoLineCellLit.data =
      DayOutcome.rostered [⟨'D', 600, 1400, 8⟩, ⟨'N', 1800, 600, 12⟩] 20 := by
  refine ⟨by decide, ?_, by decide⟩
  intro cell shifts hw h
  unfold classify at h
  split_ifs at h
  rw [parseCell_eq] at h
  simp only [DayOutcome.rostered.injEq] at h
  obtain ⟨hs, hh⟩ := h
  rw [← hh, hs]

/-- Witness for C5: the two-valid-line cell's aggregated 20 hours equal
the sum of its records' hours fields. -/
theorem shift_parse_roundtrip_witness :
    (20 : Int) = sumHoursOf [⟨'D', 600, 1400, 8⟩, ⟨'N', 1800, 600, 12⟩] :=
  shift_parse_roundtrip.2.1 twoLineCellLit.data
    [⟨'D', 600, 1400, 8⟩, ⟨'N', 1800, 600, 12⟩] 20 (by decide)

/-- C10: the parser takes a non-empty line's first character as the
shift-type code unconditionally, without validating that it is a
letter; the line `"0600-1400 (8)"` still produces a record, with type
`'0'`, start 600 (parsed from `"600"`), end 1400 and hours 8. -/
theorem first_char_unvalidated :
    (∀ c rest r, parseShiftLine (c :: rest) = some r → r.shift_type = c)
  ∧ classify digitLineLit.data = DayOutcome.rostered [⟨'0', 600, 1400, 8⟩] 8 := by
  refine ⟨?_, by decide⟩
  intro c rest r h
  unfold parseShiftLine at h
  repeat' split at h
  all_goals simp_all
  rw [← h]

/-- Witness for C10: the record parsed from the digit-led line carries
its first character `'0'` as shift type. -/
theorem first_char_unvalidated_witness :
    (⟨'0', 600, 1400, 8⟩ : ShiftRecord).shift_type = '0' :=
  first_char_unvalidated.1 '0' digitLineRest ⟨'0', 600, 1400, 8⟩ (by decide)

/-- C6: for every month present in the offset table the cell locator
returns `offset_table[month] + day`; for an absent month the offset
defaults to 0 and the result is the raw day. -/
theorem cell_locator_offset :
    (∀ (tbl : List (Nat × Int)) m d off, tbl.lookup m = some off →
        cellIndexOf tbl m d = off + d)
  ∧ (∀ (tbl : List (Nat × Int)) m d, tbl.lookup m = none →
        cellIndexOf tbl m d = d) := by
  constructor <;> intros <;> simp [cellIndexOf, *]

/-- Witness for C6: a present month adds its offset, an absent one
degrades to the raw day. -/
theorem cell_locator_offset_witness :
    cellIndexOf demoOffsets 10 5 = 287 + (5 : Int) ∧
    cellIndexOf demoOffsets 3 5 = (5 : Int) :=
  ⟨cell_locator_offset.1 demoOffsets 10 5 287 (by decide),
    cell_locator_offset.2 demoOffsets 3 5 (by decide)⟩

/-- C7: for a Friday reference date the planner returns exactly
`[date+1, date+2]` in order; for every other weekday exactly
`[date+1]`. -/
theorem date_planner_friday (base : Nat) :
    (pyWeekday base = 4 → get_test_dates base = [base + 1, base + 2])
  ∧ (pyWeekday base ≠ 4 → get_test_dates base = [base + 1]) := by
  constructor <;> intro h <;> simp [get_test_dates, h]

/-- Witness for C7: 2024-09-27 (ordinal 739156) is a Friday and plans
the following Saturday and Sunday; the Saturday plans only the
Sunday. -/
theorem date_planner_friday_witness :
    get_test_dates 739156 = [739157, 739158] ∧
    get_test_dates 739157 = [739158] :=
  ⟨(date_planner_friday 739156).1 (by decide),
    (date_planner_friday 739157).2 (by decide)⟩

/-- C2: a not-finalised classification ends the attempt without
processing the remaining dates and flags a retry; N consecutive
not-finalised attempts reach the failed state with retry count N and
exactly one failure notification (to primary and secondary); a
successful attempt K ≤ N executes the success-path notification
decision exactly once and makes no further attempts. -/
theorem retry_state_machine :
    (∀ d o (rest : List (Nat × DateObs)), o.navOk = true → o.cellFound = true →
        classify o.text = DayOutcome.notFinalized →
        processRoster ((d, o) :: rest) = ([Msg.notFinalMsg d], true))
  ∧ (∀ N dates world todayWd, 0 < N →
        (∀ k, k < N → attemptNotFinalised dates (world k)) →
        mainLoop N dates world todayWd 0 0 =
          ⟨[(SmsPayload.retryLimitMsg, [recipientOf keySelf, recipientOf keyWife])],
            some 1, N, N, 0⟩)
  ∧ (∀ N dates world todayWd K obs, 0 < K → K ≤ N →
        (∀ k, k < K - 1 → attemptNotFinalised dates (world k)) →
        world (K - 1) = AttemptObs.page obs →
        (processRoster (dates.zip obs)).2 = false →
        (mainLoop N dates world todayWd 0 0).successDecisions = 1 ∧
        (mainLoop N dates world todayWd 0 0).attempts = K) := by
  refine ⟨?_, ?_, ?_⟩
  · intro d o rest hn hc hcl
    simp [processRoster, hn, hc, hcl]
  · intro N dates world todayWd hN hall
    have h := mainLoopF_allNF dates world todayWd N 0 0 hN
      (fun j hj => by simpa using hall j hj)
    simpa [mainLoop] using h
  · intro N dates world todayWd K obs hK hKN hall hpage hnf
    have h := mainLoopF_success dates world todayWd (K - 1) N 0 0 obs (by omega)
      (fun j hj => by simpa using hall j hj)
      (by simpa using hpage) hnf
    refine ⟨by simpa [mainLoop] using h.1, ?_⟩
    have h2 := h.2
    simp only [mainLoop, Nat.sub_zero] at h2 ⊢
    omega

/-- Witness for C2: with max_retries 2 and every attempt not-finalised,
the run fails with retry count 2 and one failure SMS. -/
theorem retry_state_machine_witness :
    mainLoop 2 [739157] nfWorld 0 0 0 =
      ⟨[(SmsPayload.retryLimitMsg, [recipientOf keySelf, recipientOf keyWife])],
        some 1, 2, 2, 0⟩ :=
  retry_state_machine.2.1 2 [739157] nfWorld 0 (by decide)
    (fun k _ => show (processRoster ([739157].zip [nfObs])).2 = true by decide)

/-- C3 counterexample: a run whose first attempt times out at the
username field terminates with status 1 having attempted no SMS at all,
although it is a terminal failure path. -/
theorem auth_failure_no_sms :
    mainRun todayLit 739156 4 120 authWorld = ⟨[], some 1, 0, 1, 0⟩ := by
  decide

/-- C3 amended: the retry-limit-exhaustion and unexpected-exception
terminal paths attempt one SMS to the primary and secondary recipients
before exiting non-zero, but the authentication-timeout paths (username
field, password field, or logged-in landing state) exit with status 1
without attempting any SMS. -/
theorem failure_paths_notification :
    (∀ maxR dates world todayWd cur k, cur < maxR →
        (world k = AttemptObs.authFailUser ∨ world k = AttemptObs.authFailPass ∨
          world k = AttemptObs.authFailLanding) →
        mainLoop maxR dates world todayWd cur k = ⟨[], some 1, cur, k + 1, 0⟩)
  ∧ (∀ maxR dates world todayWd cur k, cur < maxR →
        world k = AttemptObs.raised →
        mainLoop maxR dates world todayWd cur k =
          ⟨[(SmsPayload.errorMsg, [recipientOf keySelf, recipientOf keyWife])],
            some 1, cur, k + 1, 0⟩)
  ∧ (∀ maxR dates world todayWd cur k obs, cur + 1 = maxR →
        world k = AttemptObs.page obs →
        (processRoster (dates.zip obs)).2 = true →
        mainLoop maxR dates world todayWd cur k =
          ⟨[(SmsPayload.retryLimitMsg, [recipientOf keySelf, recipientOf keyWife])],
            some 1, maxR, k + 1, 0⟩) := by
  refine ⟨?_, ?_, ?_⟩
  · intro maxR dates world todayWd cur k hlt hw
    obtain ⟨r, hr⟩ : ∃ r, maxR - cur = r + 1 := ⟨maxR - cur - 1, by omega⟩
    rcases hw with hw | hw | hw <;> simp [mainLoop, hr, mainLoopF, hw]
  · intro maxR dates world todayWd cur k hlt hw
    obtain ⟨r, hr⟩ : ∃ r, maxR - cur = r + 1 := ⟨maxR - cur - 1, by omega⟩
    simp [mainLoop, hr, mainLoopF, hw]
  · intro maxR dates world todayWd cur k obs hlast hw hnf
    have hr : maxR - cur = 0 + 1 := by omega
    simp only [mainLoop, hr, mainLoopF, hw, hnf, if_true, Nat.lt_irrefl 0, if_false]
    simp only [RunResult.mk.injEq, true_and, and_true]
    omega

/-- Witness for C3 (amended): an unexpected exception on the first
attempt sends one failure SMS to primary and secondary and exits 1. -/
theorem failure_paths_notification_witness :
    mainLoop 120 [739157] raisedWorld 0 0 0 =
      ⟨[(SmsPayload.errorMsg, [recipientOf keySelf, recipientOf keyWife])],
        some 1, 0, 1, 0⟩ :=
  failure_paths_notification.2.1 120 [739157] raisedWorld 0 0 0 (by decide) rfl

/-- C4 counterexample: an unexpected exception raised inside the first
date's shift-processing block does not terminate the run; the attempt
continues with the second date and the run completes successfully
(exit code absent, one success SMS, no failure notification). -/
theorem proc_exception_continues :
    mainLoop 120 [739157, 739158] exnWorld 0 0 0 =
      ⟨[(SmsPayload.successMsg [Msg.hoursMsg 739158 twoLineCellLit.data],
          [recipientOf keySelf, recipientOf keyWife])], none, 0, 1, 1⟩ := by
  decide

/-- C4 amended: an unexpected exception that escapes to the top-level
handler (anywhere in the attempt outside the per-date shift-processing
block) is fatal — one failure SMS to primary and secondary, exit status
1, no retry consumed, no further dates or attempts; an exception inside
a single date's shift-processing block is caught locally, logged, and
processing continues with the remaining dates. -/
theorem unexpected_exception_paths :
    (∀ maxR dates world todayWd cur k, cur < maxR →
        world k = AttemptObs.raised →
        mainLoop maxR dates world todayWd cur k =
          ⟨[(SmsPayload.errorMsg, [recipientOf keySelf, recipientOf keyWife])],
            some 1, cur, k + 1, 0⟩)
  ∧ (∀ d o (rest : List (Nat × DateObs)) shifts hw, o.navOk = true →
        o.cellFound = true → o.procExn = true →
        classify o.text = DayOutcome.rostered shifts hw →
        processRoster ((d, o) :: rest) = processRoster rest) := by
  constructor
  · intro maxR dates world todayWd cur k hlt hw
    obtain ⟨r, hr⟩ : ∃ r, maxR - cur = r + 1 := ⟨maxR - cur - 1, by omega⟩
    simp [mainLoop, hr, mainLoopF, hw]
  · intro d o rest shifts hw hn hc hx hcl
    simp [processRoster, hn, hc, hcl, hx]

/-- Witness for C4 (amended): a mid-run exception attempt (retry
counter already at 3) exits 1 without touching the counter. -/
theorem unexpected_exception_paths_witness :
    mainLoop 5 [739157] raisedWorld 2 3 7 =
      ⟨[(SmsPayload.errorMsg, [recipientOf keySelf, recipientOf keyWife])],
        some 1, 3, 8, 0⟩ :=
  unexpected_exception_paths.1 5 [739157] raisedWorld 2 3 7 (by decide) rfl

/-- C8: on the success path with a non-empty accumulated message the
recipient list is primary and secondary, extended by the tertiary
recipient exactly when today's weekday abbreviation is in the
configured tertiary-recipient set — three recipients on such a day,
two otherwise. -/
theorem success_recipient_routing :
    ∀ maxR dates world todayWd cur k obs, cur < maxR →
      world k = AttemptObs.page obs →
      (processRoster (dates.zip obs)).2 = false →
      (processRoster (dates.zip obs)).1 ≠ [] →
      (mainLoop maxR dates world todayWd cur k).smsSent =
        [(SmsPayload.successMsg (processRoster (dates.zip obs)).1,
          if MUM_SEND_DAYS.contains (weekdayAbbrev todayWd) then
            [recipientOf keySelf, recipientOf keyWife, recipientOf keyMum]
          else [recipientOf keySelf, recipientOf keyWife])] := by
  intro maxR dates world todayWd cur k obs hlt hw hnf hne
  obtain ⟨r, hr⟩ : ∃ r, maxR - cur = r + 1 := ⟨maxR - cur - 1, by omega⟩
  simp [mainLoop, hr, mainLoopF, hw, hnf, hne]
  by_cases hm : weekdayAbbrev todayWd ∈ MUM_SEND_DAYS <;> simp [hm]

/-- Witness for C8: on a Wednesday (`todayWd = 2`) the success SMS goes
to exactly the three recipients. -/
theorem success_recipient_routing_witness :
    (mainLoop 120 [739158] goodWorld 2 0 0).smsSent =
      [(SmsPayload.successMsg [Msg.hoursMsg 739158 twoLineCellLit.data],
        [recipientOf keySelf, recipientOf keyWife, recipientOf keyMum])] := by
  have h := success_recipient_routing 120 [739158] goodWorld 2 0 0 [goodObs]
    (by decide) rfl (by decide) (by decide)
  rw [h]
  decide

/-- C9 counterexample: the value "TODAY" is neither of the literal
tokens nor a YYYY-MM-DD date, yet `determine_base_date` accepts it
instead of exiting. -/
theorem cli_date_case_insensitive :
    determine_base_date 739156 argTodayUpper = Except.ok 739156 ∧
    argTodayUpper ≠ todayLit ∧ argTodayUpper ≠ tomorrowLit ∧
    strptimeYMD argTodayUpper.data = none :=
  ⟨rfl, by decide, by decide, by decide⟩

/-- C9 amended: the CLI date argument accepts the tokens "today" and
"tomorrow" compared case-insensitively, or an explicit valid date in
YYYY-MM-DD form; every other value makes the program print a diagnostic
and exit with status 1 before any attempt (and hence before any network
activity) begins. -/
theorem cli_date_argument (t : Nat) (s : String) :
    (pyLower s.data = todayLit.data → determine_base_date t s = Except.ok t)
  ∧ (pyLower s.data ≠ todayLit.data → pyLower s.data = tomorrowLit.data →
      determine_base_date t s = Except.ok (t + 1))
  ∧ (∀ y m d, pyLower s.data ≠ todayLit.data → pyLower s.data ≠ tomorrowLit.data →
      strptimeYMD s.data = some (y, m, d) →
      determine_base_date t s = Except.ok (toOrdinal y m d))
  ∧ (pyLower s.data ≠ todayLit.data → pyLower s.data ≠ tomorrowLit.data →
      strptimeYMD s.data = none → determine_base_date t s = Except.error 1)
  ∧ (∀ todayWd maxR world, determine_base_date t s = Except.error 1 →
      mainRun s t todayWd maxR world = ⟨[], some 1, 0, 0, 0⟩) := by
  refine ⟨?_, ?_, ?_, ?_, ?_⟩
  · intro h1; simp [determine_base_date, h1]
  · intro h1 h2
    have hne : tomorrowLit.data ≠ todayLit.data := by decide
    rw [h2] at h1
    simp [determine_base_date, h1, h2]
  · intro y m d h1 h2 h3; simp [determine_base_date, h1, h2, h3]
  · intro h1 h2 h3; simp [determine_base_date, h1, h2, h3]
  · intro todayWd maxR world herr; simp [mainRun, herr]

/-- Witness for C9 (amended): an unparsable argument exits with status
1 before any attempt is made. -/
theorem cli_date_argument_witness :
    mainRun argNonsense 739156 4 120 authWorld = ⟨[], some 1, 0, 0, 0⟩ :=
  (cli_date_argument 739156 argNonsense).2.2.2.2 4 120 authWorld
    ((cli_date_argument 739156 argNonsense).2.2.2.1 (by decide) (by decide) (by decide))
